import Mathlib

/-!
Verification of the student-manager RAG pipeline.

Shallow embedding of `app/services/prompt_engineering.py` and
`app/services/ai_service.py`:

* Python strings are Lean `String` (a wrapped `List Char`); `str.lower`
  maps `Char.toLower` over the characters, `str.split()` splits on
  whitespace runs dropping empty tokens, and the `in` substring test is
  the decidable `List.IsInfix` check.
* Python floats are modelled as `ℚ`.
* Python dicts with possibly-missing keys are structures with `Option`
  fields; a `d[k]` access on a missing key is a `KeyError` in the
  `Except String` monad.
* Python sets of strings are `Finset String`.
* The text splitter (`RecursiveCharacterTextSplitter`, a third-party
  dependency) and the `f-string` renderings of numbers are abstracted
  as function parameters: every theorem below holds for all of them.
-/

namespace StudentManager

/-! ### Python string primitives -/

/-- `str.lower()` on the character list of a string (ASCII case folding). -/
def pyLower (s : List Char) : List Char := s.map Char.toLower

/-- Python `needle in hay` substring containment. -/
def strIn (needle hay : List Char) : Bool := decide (needle <:+: hay)

/-- Helper for `pySplitWS`: accumulates the current (reversed) token. -/
def splitWSAux : List Char → List Char → List (List Char)
  | [], acc => if acc.isEmpty then [] else [acc.reverse]
  | c :: cs, acc =>
    if c.isWhitespace then
      (if acc.isEmpty then splitWSAux cs [] else acc.reverse :: splitWSAux cs [])
    else splitWSAux cs (c :: acc)

/-- Python `str.split()` with no argument: maximal non-whitespace runs,
empty tokens dropped. -/
def pySplitWS (s : List Char) : List (List Char) := splitWSAux s []

theorem strIn_iff {needle hay : List Char} : strIn needle hay = true ↔ needle <:+: hay := by
  simp [strIn]

/-! ### Query Classifier (`PromptTemplates._classify_query_type`) -/

/-- Keyword list of the `comparison` branch. -/
def comparison_words : List String := ["compare", "difference", "versus", "vs", "against"]

/-- Keyword list of the `ranking` branch. -/
def ranking_words : List String := ["top", "best", "highest", "lowest", "rank", "worst"]

/-- Keyword list of the `analytics` branch. -/
def analytics_words : List String := ["average", "mean", "median", "analyze", "trend", "pattern"]

/-- Keyword list of the `identification` branch. -/
def identification_words : List String := ["who", "student", "name", "person"]

/-- Keyword list of the `temporal` branch. -/
def temporal_words : List String := ["when", "date", "time", "schedule"]

/-- Python `any(word in query for word in words)` over the lowered query. -/
def anyWordIn (words : List String) (q : List Char) : Bool :=
  words.any (fun w => strIn w.data q)

/-- `PromptTemplates._classify_query_type`: lower-case the query and test
the keyword lists in their source order. -/
def classify_query_type (query : String) : String :=
  let q := pyLower query.data
  if anyWordIn comparison_words q then "comparison"
  else if anyWordIn ranking_words q then "ranking"
  else if anyWordIn analytics_words q then "analytics"
  else if anyWordIn identification_words q then "identification"
  else if anyWordIn temporal_words q then "temporal"
  else "general"

/-- The query matches a keyword list when some keyword occurs as a
substring of the lower-cased query. -/
def MatchesKw (words : List String) (query : String) : Prop :=
  ∃ w ∈ words, w.data <:+: pyLower query.data

instance (words : List String) (query : String) : Decidable (MatchesKw words query) := by
  unfold MatchesKw; infer_instance

theorem anyWordIn_iff (words : List String) (query : String) :
    anyWordIn words (pyLower query.data) = true ↔ MatchesKw words query := by
  simp [anyWordIn, MatchesKw, List.any_eq_true, strIn_iff]

theorem anyWordIn_false_of_not (words : List String) (query : String)
    (h : ¬ MatchesKw words query) :
    anyWordIn words (pyLower query.data) = false := by
  cases hb : anyWordIn words (pyLower query.data) with
  | false => rfl
  | true => exact absurd ((anyWordIn_iff words query).mp hb) h

/-- C2: `classify_query_type` is a pure total function into the closed set
`{comparison, ranking, analytics, identification, temporal, general}`; it
returns the first category, in the fixed priority order comparison, ranking,
analytics, identification, temporal, whose keyword set matches the
lower-cased query as a substring, and `general` when none matches; in
particular `"compare the top students"` classifies as `comparison`, not
`ranking`. -/
theorem classify_query_type_spec (query : String) :
    classify_query_type query ∈
      (["comparison", "ranking", "analytics", "identification", "temporal", "general"] :
        List String) ∧
    (classify_query_type query = "comparison" ↔ MatchesKw comparison_words query) ∧
    (classify_query_type query = "ranking" ↔
      (¬ MatchesKw comparison_words query ∧ MatchesKw ranking_words query)) ∧
    (classify_query_type query = "analytics" ↔
      (¬ MatchesKw comparison_words query ∧ ¬ MatchesKw ranking_words query ∧
        MatchesKw analytics_words query)) ∧
    (classify_query_type query = "identification" ↔
      (¬ MatchesKw comparison_words query ∧ ¬ MatchesKw ranking_words query ∧
        ¬ MatchesKw analytics_words query ∧ MatchesKw identification_words query)) ∧
    (classify_query_type query = "temporal" ↔
      (¬ MatchesKw comparison_words query ∧ ¬ MatchesKw ranking_words query ∧
        ¬ MatchesKw analytics_words query ∧ ¬ MatchesKw identification_words query ∧
        MatchesKw temporal_words query)) ∧
    (classify_query_type query = "general" ↔
      (¬ MatchesKw comparison_words query ∧ ¬ MatchesKw ranking_words query ∧
        ¬ MatchesKw analytics_words query ∧ ¬ MatchesKw identification_words query ∧
        ¬ MatchesKw temporal_words query)) ∧
    classify_query_type "compare the top students" = "comparison" := by
  have hc := anyWordIn_iff comparison_words query
  have hr := anyWordIn_iff ranking_words query
  have ha := anyWordIn_iff analytics_words query
  have hi := anyWordIn_iff identification_words query
  have ht := anyWordIn_iff temporal_words query
  cases bc : anyWordIn comparison_words (pyLower query.data) <;>
    cases br : anyWordIn ranking_words (pyLower query.data) <;>
      cases ba : anyWordIn analytics_words (pyLower query.data) <;>
        cases bi : anyWordIn identification_words (pyLower query.data) <;>
          cases bt : anyWordIn temporal_words (pyLower query.data) <;>
  · rw [bc] at hc; rw [br] at hr; rw [ba] at ha; rw [bi] at hi; rw [bt] at ht
    simp only [classify_query_type, bc, br, ba, bi, bt, if_true, if_false,
      Bool.false_eq_true, Bool.true_eq_false]
    refine ⟨by simp, ?_, ?_, ?_, ?_, ?_, ?_, by decide⟩ <;>
      simp_all

/-- C10: the classifier matches keywords as substrings, not as whole words:
any query containing `"topology"` (which contains the ranking keyword
`"top"`) and no comparison keyword is classified as `ranking`. -/
theorem classify_substring_semantics (query : String)
    (h1 : ("topology" : String).data <:+: pyLower query.data)
    (h2 : ¬ MatchesKw comparison_words query) :
    classify_query_type query = "ranking" := by
  have htop : ("top" : String).data <:+: pyLower query.data :=
    List.IsInfix.trans (by decide) h1
  have hr : anyWordIn ranking_words (pyLower query.data) = true :=
    (anyWordIn_iff ranking_words query).mpr ⟨"top", by decide, htop⟩
  have hcF : anyWordIn comparison_words (pyLower query.data) = false :=
    anyWordIn_false_of_not comparison_words query h2
  simp [classify_query_type, hr, hcF]

/-- Witness for C10 at the concrete query `"Explain Topology basics"`. -/
theorem classify_substring_semantics_witness :
    (("topology" : String).data <:+: pyLower ("Explain Topology basics" : String).data) ∧
    (¬ MatchesKw comparison_words "Explain Topology basics") ∧
    classify_query_type "Explain Topology basics" = "ranking" :=
  ⟨by decide, by decide,
    classify_substring_semantics "Explain Topology basics" (by decide) (by decide)⟩

/-! ### Data model of retrieved documents -/

/-- The `metadata` dict attached to a document; keys may be absent. -/
structure DocMeta where
  type : Option String := none
  student_id : Option String := none
  course_id : Option String := none
  name : Option String := none
  chunk_number : Option Nat := none
  total_chunks : Option Nat := none
deriving DecidableEq

/-- A retrieved document `{page_content, metadata}`. -/
structure Doc where
  page_content : String
  metadata : DocMeta
deriving DecidableEq

/-- A document after `optimize_for_relevance` attached its
`relevance_score` entry. -/
structure ScoredDoc where
  doc : Doc
  relevance_score : ℚ
deriving DecidableEq

/-! ### Relevance Optimizer (`RAGPromptOptimizer.optimize_for_relevance`) -/

/-- `set(query.lower().split())` as an ordered duplicate-free list. -/
def query_terms_of (query : String) : List (List Char) :=
  (pySplitWS (pyLower query.data)).dedup

/-- `sum(1 for term in query_terms if term in content)`: the number of
distinct query terms occurring as substrings of the content. -/
def matching_terms_count (terms : List (List Char)) (content : List Char) : ℕ :=
  (terms.filter (fun t => strIn t content)).length

/-- Python `/` on floats (modelled by `ℚ`): raises `ZeroDivisionError`
on a zero denominator. -/
def pyDiv (a b : ℚ) : Except String ℚ :=
  if b = 0 then Except.error "ZeroDivisionError: float division by zero"
  else Except.ok (a / b)

/-- The filtering/scoring loop of `optimize_for_relevance`: keep the
documents with a positive match count and attach `relevance_score`. -/
def filter_score (terms : List (List Char)) : List Doc → Except String (List ScoredDoc)
  | [] => Except.ok []
  | doc :: rest => do
      let content := pyLower doc.page_content.data
      let m := matching_terms_count terms content
      if 0 < m then do
        let score ← pyDiv (m : ℚ) (terms.length : ℚ)
        let tail ← filter_score terms rest
        Except.ok (⟨doc, score⟩ :: tail)
      else filter_score terms rest

/-- Pure companion of `filter_score` (the loop never actually divides by
zero; see `filter_score_ok`). -/
def filter_score_pure (terms : List (List Char)) : List Doc → List ScoredDoc
  | [] => []
  | doc :: rest =>
      let m := matching_terms_count terms (pyLower doc.page_content.data)
      if 0 < m then
        ⟨doc, (m : ℚ) / (terms.length : ℚ)⟩ :: filter_score_pure terms rest
      else filter_score_pure terms rest

/-- `list.sort(key=..., reverse=True)`: stable descending comparison on
the relevance score. -/
def scoreDescLe (a b : ScoredDoc) : Bool := b.relevance_score ≤ a.relevance_score

/-- `RAGPromptOptimizer.optimize_for_relevance`: filter by term overlap,
stable-sort by score descending, truncate to 3. -/
def optimize_for_relevance (query : String) (retrieved_docs : List Doc) :
    Except String (List ScoredDoc) := do
  let query_terms := query_terms_of query
  let filtered_docs ← filter_score query_terms retrieved_docs
  Except.ok ((filtered_docs.mergeSort scoreDescLe).take 3)

theorem terms_ne_nil_of_matching_pos {terms : List (List Char)} {content : List Char}
    (h : 0 < matching_terms_count terms content) : terms ≠ [] := by
  intro hnil
  rw [hnil] at h
  simp [matching_terms_count] at h

theorem filter_score_ok (terms : List (List Char)) (docs : List Doc) :
    filter_score terms docs = Except.ok (filter_score_pure terms docs) := by
  induction docs with
  | nil => rfl
  | cons doc rest ih =>
    by_cases hm : 0 < matching_terms_count terms (pyLower doc.page_content.data)
    · have hne : terms ≠ [] := terms_ne_nil_of_matching_pos hm
      have hlen : ((terms.length : ℚ)) ≠ 0 :=
        Nat.cast_ne_zero.mpr (List.length_pos.mpr hne).ne'
      rw [filter_score, filter_score_pure]
      simp only [hm, if_true, pyDiv, hlen, if_false, ite_false, ih]
      rfl
    · simp [filter_score, filter_score_pure, hm, ih]

theorem optimize_ok (query : String) (docs : List Doc) :
    optimize_for_relevance query docs =
      Except.ok
        (((filter_score_pure (query_terms_of query) docs).mergeSort scoreDescLe).take 3) := by
  simp only [optimize_for_relevance]
  rw [filter_score_ok]
  rfl

theorem mem_filter_score_pure {terms : List (List Char)} {docs : List Doc} {x : ScoredDoc}
    (h : x ∈ filter_score_pure terms docs) :
    0 < matching_terms_count terms (pyLower x.doc.page_content.data) ∧
      x.relevance_score =
        (matching_terms_count terms (pyLower x.doc.page_content.data) : ℚ) /
          (terms.length : ℚ) := by
  induction docs with
  | nil => simp [filter_score_pure] at h
  | cons doc rest ih =>
    by_cases hm : 0 < matching_terms_count terms (pyLower doc.page_content.data)
    · rw [filter_score_pure] at h
      simp only [hm, if_true] at h
      rcases List.mem_cons.mp h with h | h
      · subst h
        exact ⟨hm, rfl⟩
      · exact ih h
    · rw [filter_score_pure] at h
      simp only [hm, if_false] at h
      exact ih h

theorem scoreDescLe_trans (a b c : ScoredDoc)
    (hab : scoreDescLe a b = true) (hbc : scoreDescLe b c = true) :
    scoreDescLe a c = true := by
  simp only [scoreDescLe, decide_eq_true_eq] at *
  exact le_trans hbc hab

theorem scoreDescLe_total (a b : ScoredDoc) :
    (scoreDescLe a b || scoreDescLe b a) = true := by
  simp only [scoreDescLe, Bool.or_eq_true, decide_eq_true_eq]
  exact le_total b.relevance_score a.relevance_score

/-- C1: `optimize_for_relevance` returns at most 3 documents, each kept
document has a positive match count, its score is (distinct matching
terms) / (distinct query terms) and is nonzero, the results are sorted by
score descending, ties of the filtered list are kept in retrieval order
by the stable sort, and the result is the 3-prefix of that stable sort. -/
theorem optimize_for_relevance_spec (query : String) (docs : List Doc)
    (res : List ScoredDoc)
    (h : optimize_for_relevance query docs = Except.ok res) :
    res.length ≤ 3 ∧
    (∀ x ∈ res,
      0 < matching_terms_count (query_terms_of query) (pyLower x.doc.page_content.data) ∧
      x.relevance_score =
        (matching_terms_count (query_terms_of query) (pyLower x.doc.page_content.data) : ℚ) /
          ((query_terms_of query).length : ℚ) ∧
      x.relevance_score ≠ 0) ∧
    List.Pairwise (fun a b => b.relevance_score ≤ a.relevance_score) res ∧
    (∀ a b : ScoredDoc,
      [a, b].Sublist (filter_score_pure (query_terms_of query) docs) →
      a.relevance_score = b.relevance_score →
      [a, b].Sublist
        ((filter_score_pure (query_terms_of query) docs).mergeSort scoreDescLe)) ∧
    res = ((filter_score_pure (query_terms_of query) docs).mergeSort scoreDescLe).take 3 := by
  rw [optimize_ok] at h
  have hres : res =
      ((filter_score_pure (query_terms_of query) docs).mergeSort scoreDescLe).take 3 :=
    (Except.ok.injEq _ _).mp h.symm
  subst hres
  refine ⟨?_, ?_, ?_, ?_, rfl⟩
  · rw [List.length_take]
    exact min_le_left 3 _
  · intro x hx
    have hx1 : x ∈ (filter_score_pure (query_terms_of query) docs).mergeSort scoreDescLe :=
      List.take_subset 3 _ hx
    have hx2 : x ∈ filter_score_pure (query_terms_of query) docs :=
      (List.mergeSort_perm _ _).mem_iff.mp hx1
    obtain ⟨hpos, hval⟩ := mem_filter_score_pure hx2
    refine ⟨hpos, hval, ?_⟩
    have hne : query_terms_of query ≠ [] := terms_ne_nil_of_matching_pos hpos
    have hlen : (((query_terms_of query).length : ℚ)) ≠ 0 :=
      Nat.cast_ne_zero.mpr (List.length_pos.mpr hne).ne'
    have hm : ((matching_terms_count (query_terms_of query)
        (pyLower x.doc.page_content.data) : ℚ)) ≠ 0 := by
      simpa using Nat.pos_iff_ne_zero.mp hpos
    rw [hval]
    exact div_ne_zero hm hlen
  · have hsorted :=
      List.sorted_mergeSort scoreDescLe_trans scoreDescLe_total
        (filter_score_pure (query_terms_of query) docs)
    have htake := List.Pairwise.sublist (List.take_sublist 3 _) hsorted
    exact htake.imp (fun hab => by simpa [scoreDescLe] using hab)
  · intro a b hsub heq
    have hpair : List.Pairwise (fun x y => scoreDescLe x y = true) [a, b] := by
      simp [scoreDescLe, heq.ge]
    exact List.sublist_mergeSort scoreDescLe_trans scoreDescLe_total hpair hsub

/-- A fixed document used for the concrete witnesses. -/
def docAlpha : Doc := { page_content := "alpha document", metadata := {} }

/-- Witness for C1 at the query `"alpha"` and candidate list `[docAlpha]`. -/
theorem optimize_for_relevance_spec_witness :
    optimize_for_relevance "alpha" [docAlpha] =
      Except.ok [⟨docAlpha, ((1 : ℕ) : ℚ) / ((1 : ℕ) : ℚ)⟩] ∧
    ([(⟨docAlpha, ((1 : ℕ) : ℚ) / ((1 : ℕ) : ℚ)⟩ : ScoredDoc)]).length ≤ 3 := by
  have h1 : filter_score_pure (query_terms_of "alpha") [docAlpha] =
      [⟨docAlpha, ((1 : ℕ) : ℚ) / ((1 : ℕ) : ℚ)⟩] := rfl
  have h : optimize_for_relevance "alpha" [docAlpha] =
      Except.ok [⟨docAlpha, ((1 : ℕ) : ℚ) / ((1 : ℕ) : ℚ)⟩] := by
    rw [optimize_ok, h1, List.mergeSort_singleton]
    rfl
  exact ⟨h, (optimize_for_relevance_spec "alpha" [docAlpha] _ h).1⟩

theorem filter_score_pure_nil_terms (docs : List Doc) :
    filter_score_pure [] docs = [] := by
  induction docs with
  | nil => rfl
  | cons doc rest ih => simp [filter_score_pure, matching_terms_count, ih]

/-- C9: `optimize_for_relevance` is total on queries with no whitespace
tokens: the guarded division is never reached (no `ZeroDivisionError`)
and the result is the empty list for every candidate list. -/
theorem optimize_empty_query_total (query : String) (docs : List Doc)
    (h : pySplitWS (pyLower query.data) = []) :
    optimize_for_relevance query docs = Except.ok [] := by
  have ht : query_terms_of query = [] := by simp [query_terms_of, h]
  rw [optimize_ok, ht, filter_score_pure_nil_terms, List.mergeSort_nil]
  rfl

/-- Witness for C9 at the whitespace-only query `" "`. -/
theorem optimize_empty_query_total_witness :
    pySplitWS (pyLower (" " : String).data) = [] ∧
    optimize_for_relevance " " [docAlpha] = Except.ok [] :=
  ⟨by decide, optimize_empty_query_total " " [docAlpha] (by decide)⟩

/-! ### Context Prioritizer (`RAGPromptOptimizer.prioritize_context`) -/

/-- The prefix `f"[HIGH RELEVANCE] {content}"` adds to a chunk. -/
def high_relevance_marker : String := "[HIGH RELEVANCE] "

/-- `RAGPromptOptimizer.prioritize_context`: render the chunks (digit rule
for `ranking`, score threshold otherwise) and join them with a blank line;
an empty input yields the fixed sentinel. -/
def prioritize_context (retrieved_docs : List ScoredDoc) (query_type : String) : String :=
  if retrieved_docs.isEmpty then "No relevant information found in the database."
  else
    let formatted_chunks :=
      if query_type = "ranking" then
        retrieved_docs.map (fun doc =>
          if doc.doc.page_content.data.any Char.isDigit then
            high_relevance_marker ++ doc.doc.page_content
          else doc.doc.page_content)
      else
        retrieved_docs.map (fun doc =>
          if (7 : ℚ) / 10 < doc.relevance_score then
            high_relevance_marker ++ doc.doc.page_content
          else doc.doc.page_content)
    String.intercalate "\n\n" formatted_chunks

/-- C3: `prioritize_context` renders the empty input as the fixed sentinel
string; otherwise it joins the chunks in the order received with a blank
line, prefixing the high-relevance marker exactly when the chunk contains
a digit (for `ranking` queries, regardless of score) or when its score
exceeds 0.7 (for every other query type). -/
theorem prioritize_context_spec (docs : List ScoredDoc) (query_type : String) :
    prioritize_context [] query_type = "No relevant information found in the database." ∧
    (docs ≠ [] →
      prioritize_context docs query_type =
        String.intercalate "\n\n"
          (docs.map (fun doc =>
            if (if query_type = "ranking" then doc.doc.page_content.data.any Char.isDigit
                else decide ((7 : ℚ) / 10 < doc.relevance_score)) = true then
              high_relevance_marker ++ doc.doc.page_content
            else doc.doc.page_content))) := by
  constructor
  · rfl
  · intro hne
    rw [prioritize_context]
    have hempty : docs.isEmpty = false := by
      simpa [List.isEmpty_iff] using hne
    rw [hempty]
    simp only [Bool.false_eq_true, if_false]
    by_cases hq : query_type = "ranking"
    · simp [hq]
    · simp [hq]

/-- A fixed digit-containing document for the concrete witnesses. -/
def docNum : Doc := { page_content := "score 95", metadata := {} }

/-- Witness for C3 at one digit-containing chunk and query type
`"ranking"`. -/
theorem prioritize_context_spec_witness :
    ([(⟨docNum, 0⟩ : ScoredDoc)] ≠ ([] : List ScoredDoc)) ∧
    prioritize_context [⟨docNum, 0⟩] "ranking" =
      String.intercalate "\n\n"
        ([(⟨docNum, 0⟩ : ScoredDoc)].map (fun doc =>
          if (if ("ranking" : String) = "ranking" then doc.doc.page_content.data.any Char.isDigit
              else decide ((7 : ℚ) / 10 < doc.relevance_score)) = true then
            high_relevance_marker ++ doc.doc.page_content
          else doc.doc.page_content)) :=
  ⟨by decide, (prioritize_context_spec [⟨docNum, 0⟩] "ranking").2 (by decide)⟩

/-! ### Completion Client (`AIService.query_groq`) -/

/-- A parsed JSON value. -/
inductive PyJson where
  | null
  | bool (b : Bool)
  | num (q : ℚ)
  | str (s : String)
  | arr (items : List PyJson)
  | obj (fields : List (String × PyJson))

/-- Python `j[k]` on a parsed JSON value: `none` models the `KeyError` /
`TypeError` raised when the key or object shape is absent. -/
def PyJson.getKeyJ : PyJson → String → Option PyJson
  | .obj fields, k => fields.lookup k
  | _, _ => none

/-- Python `j[i]` indexing: `none` models `IndexError` / `TypeError`. -/
def PyJson.getIdx : PyJson → ℕ → Option PyJson
  | .arr items, i => items.get? i
  | _, _ => none

/-- The extraction `result["choices"][0]["message"]["content"]`. -/
def extract_message_content (j : PyJson) : Option PyJson := do
  let choices ← j.getKeyJ "choices"
  let first ← choices.getIdx 0
  let message ← first.getKeyJ "message"
  message.getKeyJ "content"

/-- An HTTP response body: parsed JSON when the response is JSON,
otherwise the raw text. -/
inductive RespBody where
  | jsonBody (j : PyJson)
  | textBody (t : String)

/-- An HTTP response: status code and body. -/
structure HttpResponse where
  status : ℕ
  body : RespBody

/-- The outcome of the POST to the completion endpoint: a response, or
an `httpx.TimeoutException`. -/
inductive HttpOutcome where
  | response (r : HttpResponse)
  | timeout

/-- The distinguishable failures of `query_groq`: the missing-credential
`ValueError`, the non-200 `Exception` carrying status and error body, the
timeout `Exception` with its fixed message, and the lookup error raised by
a success response without the `choices/message/content` shape. -/
inductive GroqError where
  | configError (msg : String)
  | upstream (status : ℕ) (detail : RespBody)
  | timedOut (msg : String)
  | malformedShape

/-- `AIService.query_groq`, as a function of the outcome of the single
HTTP call it performs. No retry: each failure is returned as-is. -/
def query_groq (groq_api_key : String) (outcome : HttpOutcome) : Except GroqError PyJson :=
  if groq_api_key = "" then
    Except.error (GroqError.configError "GROQ_API_KEY is not set in environment variables")
  else
    match outcome with
    | .timeout =>
        Except.error (GroqError.timedOut
          "Request to Groq API timed out. The service might be experiencing high demand.")
    | .response r =>
        if r.status ≠ 200 then Except.error (GroqError.upstream r.status r.body)
        else
          match r.body with
          | .jsonBody j =>
              match extract_message_content j with
              | some c => Except.ok c
              | none => Except.error GroqError.malformedShape
          | .textBody _ => Except.error GroqError.malformedShape

/-- C4: with a configured key, `query_groq` fails with the upstream error
(carrying status and parsed-or-raw body) exactly on non-200 responses,
with the timeout error on timeout, and with the malformed-shape error on a
success response without the `choices/message/content` path; on a
well-shaped success it returns the extracted content; and the three
failure kinds are pairwise distinguishable. -/
theorem query_groq_error_taxonomy (groq_api_key : String) (hk : groq_api_key ≠ "") :
    (∀ (st : ℕ) (b : RespBody), st ≠ 200 →
      query_groq groq_api_key (HttpOutcome.response ⟨st, b⟩) =
        Except.error (GroqError.upstream st b)) ∧
    (query_groq groq_api_key HttpOutcome.timeout =
      Except.error (GroqError.timedOut
        "Request to Groq API timed out. The service might be experiencing high demand.")) ∧
    (∀ j : PyJson, extract_message_content j = none →
      query_groq groq_api_key (HttpOutcome.response ⟨200, RespBody.jsonBody j⟩) =
        Except.error GroqError.malformedShape) ∧
    (∀ (j c : PyJson), extract_message_content j = some c →
      query_groq groq_api_key (HttpOutcome.response ⟨200, RespBody.jsonBody j⟩) =
        Except.ok c) ∧
    (∀ (st : ℕ) (b : RespBody) (m m2 : String),
      GroqError.upstream st b ≠ GroqError.timedOut m ∧
      GroqError.upstream st b ≠ GroqError.malformedShape ∧
      GroqError.timedOut m2 ≠ GroqError.malformedShape) := by
  refine ⟨?_, ?_, ?_, ?_, ?_⟩
  · intro st b hst
    simp [query_groq, hk, hst]
  · simp [query_groq, hk]
  · intro j hj
    simp [query_groq, hk, hj]
  · intro j c hj
    simp [query_groq, hk, hj]
  · intro st b m m2
    refine ⟨?_, ?_, ?_⟩ <;> intro hcon <;> exact GroqError.noConfusion hcon

/-- A JSON body with the full `choices/message/content` shape, for the
concrete witness. -/
def jsonShapeOk : PyJson :=
  PyJson.obj
    [("choices",
      PyJson.arr [PyJson.obj [("message", PyJson.obj [("content", PyJson.str "Answer text")])]])]

/-- Witness for C4 at the key `"key"`, a 500 response, a timeout, an
empty JSON object and a well-shaped JSON body. -/
theorem query_groq_error_taxonomy_witness :
    (("key" : String) ≠ "") ∧
    query_groq "key" (HttpOutcome.response ⟨500, RespBody.textBody "server error"⟩) =
      Except.error (GroqError.upstream 500 (RespBody.textBody "server error")) ∧
    query_groq "key" HttpOutcome.timeout =
      Except.error (GroqError.timedOut
        "Request to Groq API timed out. The service might be experiencing high demand.") ∧
    query_groq "key" (HttpOutcome.response ⟨200, RespBody.jsonBody (PyJson.obj [])⟩) =
      Except.error GroqError.malformedShape ∧
    query_groq "key" (HttpOutcome.response ⟨200, RespBody.jsonBody jsonShapeOk⟩) =
      Except.ok (PyJson.str "Answer text") :=
  ⟨by decide,
   (query_groq_error_taxonomy "key" (by decide)).1 500 _ (by decide),
   (query_groq_error_taxonomy "key" (by decide)).2.1,
   (query_groq_error_taxonomy "key" (by decide)).2.2.1 _ rfl,
   (query_groq_error_taxonomy "key" (by decide)).2.2.2.1 _ _ rfl⟩

/-! ### Document Builder (`AIService._process_data_to_documents`)

The records supplied by the data service are Python dicts; every key may
be absent, and a `d[k]` access on a missing key raises `KeyError: k`,
modelled as `Except.error ("KeyError: " ++ k)`.  The third-party text
splitter and the number renderings are abstracted as parameters. -/

/-- A grade dict `{subject, score, semester}`. -/
structure GradeRec where
  subject : Option String := none
  score : Option ℚ := none
  semester : Option String := none
deriving DecidableEq

/-- A student-with-grades dict. -/
structure StudentRec where
  id : Option String := none
  name : Option String := none
  email : Option String := none
  enrollment_date : Option String := none
  grades : Option (List GradeRec) := none
  ai_rag_project : Option String := none
  project_contributions : Option String := none
  learning_results : Option String := none
deriving DecidableEq

/-- A course `statistics` dict. -/
structure CourseStats where
  avg_score : Option ℚ := none
  student_count : Option ℕ := none
  pass_rate : Option ℚ := none
deriving DecidableEq

/-- A course-with-statistics dict. -/
structure CourseRec where
  id : Option String := none
  name : Option String := none
  department : Option String := none
  description : Option String := none
  statistics : Option CourseStats := none
deriving DecidableEq

/-- Python `d[k]`: the value, or a `KeyError` when the key is absent. -/
def getKey {α : Type} (v : Option α) (k : String) : Except String α :=
  match v with
  | some x => Except.ok x
  | none => Except.error ("KeyError: " ++ k)

/-- Python truthiness of `d.get(k)` for a string value: present and
non-empty. -/
def truthyStr (v : Option String) : Bool :=
  match v with
  | some s => !s.isEmpty
  | none => false

/-- The extraction of one grade dict's fields, in source access order. -/
def extractGrade (g : GradeRec) : Except String (String × ℚ × String) := do
  let subject ← getKey g.subject "subject"
  let score ← getKey g.score "score"
  let semester ← getKey g.semester "semester"
  Except.ok (subject, score, semester)

/-- Field extraction over the grade list, in order. -/
def extractGrades : List GradeRec → Except String (List (String × ℚ × String))
  | [] => Except.ok []
  | g :: gs => do
      let t ← extractGrade g
      let ts ← extractGrades gs
      Except.ok (t :: ts)

/-- The `f"- {subject}: {score} ({semester})\n"` lines of the grade loop. -/
def gradeLinesText (fmtN : ℚ → String) (ts : List (String × ℚ × String)) : String :=
  ts.foldl
    (fun acc t => acc ++ "- " ++ t.1 ++ ": " ++ fmtN t.2.1 ++ " (" ++ t.2.2 ++ ")\n") ""

/-- Python `max(grades, key=lambda g: g["score"])`: the first entry with
the maximal score. -/
def pyMaxByScore : List (String × ℚ × String) → Option (String × ℚ × String)
  | [] => none
  | t :: ts => some (ts.foldl (fun m x => if m.2.1 < x.2.1 then x else m) t)

/-- Python `min(grades, key=lambda g: g["score"])`: the first entry with
the minimal score. -/
def pyMinByScore : List (String × ℚ × String) → Option (String × ℚ × String)
  | [] => none
  | t :: ts => some (ts.foldl (fun m x => if x.2.1 < m.2.1 then x else m) t)

/-- The derived-metric lines: arithmetic mean of the scores, the maximal
entry as best subject, the minimal entry as needing improvement. -/
def studentMetricsText (fmtN fmt2 : ℚ → String) (ts : List (String × ℚ × String)) : String :=
  let avg_score := (ts.map (fun t => t.2.1)).sum / (ts.length : ℚ)
  let best_subject := (pyMaxByScore ts).getD ("", 0, "")
  let worst_subject := (pyMinByScore ts).getD ("", 0, "")
  "Average Score: " ++ fmt2 avg_score ++ "\n" ++
    "Best Subject: " ++ best_subject.1 ++ " (" ++ fmtN best_subject.2.1 ++ ")\n" ++
    "Needs Improvement: " ++ worst_subject.1 ++ " (" ++ fmtN worst_subject.2.1 ++ ")\n"

/-- The identity header of a student rendering. -/
def studentIdentityText (nm em idv ed : String) : String :=
  "Student: " ++ nm ++ " (Email: " ++ em ++ ")\n" ++ "ID: " ++ idv ++ "\n" ++
    "Enrollment Date: " ++ ed ++ "\n"

/-- The optional project/contribution/learning lines. -/
def studentExtrasText (item : StudentRec) : String :=
  (if truthyStr item.ai_rag_project then
    "AI RAG Project: " ++ item.ai_rag_project.getD "" ++ "\n" else "") ++
  (if truthyStr item.project_contributions then
    "Project Contributions: " ++ item.project_contributions.getD "" ++ "\n" else "") ++
  (if truthyStr item.learning_results then
    "Learning Results: " ++ item.learning_results.getD "" ++ "\n" else "")

/-- The student-record rendering of `_process_data_to_documents`, lines
59–85 of `ai_service.py`: identity fields, then (when `grades` is present
and non-empty) the grade lines and the derived metrics, then the optional
extra lines. -/
def renderStudentText (fmtN fmt2 : ℚ → String) (item : StudentRec) : Except String String := do
  let nm ← getKey item.name "name"
  let em ← getKey item.email "email"
  let idv ← getKey item.id "id"
  let ed ← getKey item.enrollment_date "enrollment_date"
  let text0 := studentIdentityText nm em idv ed
  let text1 ←
    match item.grades with
    | some gs =>
        if gs.isEmpty then Except.ok text0
        else do
          let ts ← extractGrades gs
          let withLines := text0 ++ "Grades:\n" ++ gradeLinesText fmtN ts
          if 0 < gs.length then
            Except.ok (withLines ++ studentMetricsText fmtN fmt2 ts)
          else Except.ok withLines
    | none => Except.ok text0
  Except.ok (text1 ++ studentExtrasText item)

/-- The course-record rendering of `_process_data_to_documents`. -/
def renderCourseText (fmt2 fmt1 : ℚ → String) (course : CourseRec) : Except String String := do
  let nm ← getKey course.name "name"
  let idv ← getKey course.id "id"
  let dep ← getKey course.department "department"
  let desc ← getKey course.description "description"
  let text0 := "Course: " ++ nm ++ " (ID: " ++ idv ++ ")\n" ++ "Department: " ++ dep ++ "\n"
      ++ "Description: " ++ desc ++ "\n"
  match course.statistics with
  | some st => do
      let avg ← getKey st.avg_score "avg_score"
      let sc ← getKey st.student_count "student_count"
      let pr ← getKey st.pass_rate "pass_rate"
      Except.ok (text0 ++ "Course Statistics:\n" ++
        "- Average Score: " ++ fmt2 avg ++ "\n" ++
        "- Number of Students: " ++ toString sc ++ "\n" ++
        "- Pass Rate: " ++ fmt1 (pr * 100) ++ "%\n")
  | none => Except.ok text0

/-- Chunking one student record: split the rendered text and attach the
0-based chunk index and the total chunk count. -/
def student_docs (split : String → List String) (fmtN fmt2 : ℚ → String)
    (item : StudentRec) : Except String (List Doc) := do
  let text ← renderStudentText fmtN fmt2 item
  let idv ← getKey item.id "id"
  let nm ← getKey item.name "name"
  let chunks := split text
  Except.ok (chunks.enum.map (fun p =>
    { page_content := p.2,
      metadata :=
        { student_id := some idv, type := some "student_record", name := some nm,
          chunk_number := some p.1, total_chunks := some chunks.length } }))

/-- Chunking one course record. -/
def course_docs (split : String → List String) (fmt2 fmt1 : ℚ → String)
    (course : CourseRec) : Except String (List Doc) := do
  let text ← renderCourseText fmt2 fmt1 course
  let idv ← getKey course.id "id"
  let nm ← getKey course.name "name"
  let chunks := split text
  Except.ok (chunks.enum.map (fun p =>
    { page_content := p.2,
      metadata :=
        { course_id := some idv, type := some "course_record", name := some nm,
          chunk_number := some p.1, total_chunks := some chunks.length } }))

/-- The per-record loop: each record yields its own block of documents;
an error on any record aborts the whole batch. -/
def recordBlocks {α : Type} (f : α → Except String (List Doc)) :
    List α → Except String (List (List Doc))
  | [] => Except.ok []
  | x :: xs => do
      let d ← f x
      let ds ← recordBlocks f xs
      Except.ok (d :: ds)

/-- `AIService._process_data_to_documents`: render and chunk every student
record, then every course record, accumulating all documents in order. -/
def process_data_to_documents (split : String → List String) (fmtN fmt2 fmt1 : ℚ → String)
    (students_data : List StudentRec) (courses_data : List CourseRec) :
    Except String (List Doc) := do
  let s ← recordBlocks (student_docs split fmtN fmt2) students_data
  let c ← recordBlocks (course_docs split fmt2 fmt1) courses_data
  Except.ok ((s ++ c).flatten)

theorem except_bind_ok {ε α β : Type} (a : α) (f : α → Except ε β) :
    (Except.ok a >>= f : Except ε β) = f a := rfl

/-- A record whose required identity field `name` is absent. -/
def studentMissingName : StudentRec :=
  { id := some "2", email := some "m@example.com", enrollment_date := some "2023-09-01" }

/-- Concrete splitter used by the witnesses: the text as one chunk. -/
def splitWhole : String → List String := fun t => [t]

/-- Concrete number renderer used by the witnesses. -/
def fmtConst : ℚ → String := fun _ => "#"

/-- C5 counterexample: a batch containing a record with no `name` is not
processed with the bad record skipped and counted — the whole build fails
with the `KeyError`. -/
theorem malformed_record_skip_counterexample :
    process_data_to_documents splitWhole fmtConst fmtConst fmtConst
      [studentMissingName] [] = Except.error "KeyError: name" := rfl

/-- C5 (amended): a record missing the required identity field `name`
aborts the whole batch with a `KeyError`; later records are not reached,
nothing is skipped, and no skip count is reported. -/
theorem malformed_record_aborts_batch (split : String → List String)
    (fmtN fmt2 fmt1 : ℚ → String) (rest : List StudentRec) (courses : List CourseRec) :
    process_data_to_documents split fmtN fmt2 fmt1 (studentMissingName :: rest) courses =
      Except.error "KeyError: name" := rfl

/-- C6: for a student record with all identity fields present, the
derived-metric lines (mean, best subject, needs improvement) are appended
exactly when at least one grade exists; with no (or an empty) grade list
the rendering is the identity fields (plus the optional extra lines)
only. -/
theorem student_metrics_iff_grades (fmtN fmt2 : ℚ → String) (item : StudentRec)
    (nm em idv ed : String)
    (hn : item.name = some nm) (he : item.email = some em)
    (hi : item.id = some idv) (hd : item.enrollment_date = some ed) :
    ((item.grades = none ∨ item.grades = some []) →
      renderStudentText fmtN fmt2 item =
        Except.ok (studentIdentityText nm em idv ed ++ studentExtrasText item)) ∧
    (∀ (gs : List GradeRec) (ts : List (String × ℚ × String)),
      item.grades = some gs → gs ≠ [] → extractGrades gs = Except.ok ts →
      renderStudentText fmtN fmt2 item =
        Except.ok (studentIdentityText nm em idv ed ++ "Grades:\n" ++
          gradeLinesText fmtN ts ++ studentMetricsText fmtN fmt2 ts ++
          studentExtrasText item)) := by
  obtain ⟨iid, inm, iem, ied, igr, e1, e2, e3⟩ := item
  simp only [StudentRec.name] at hn
  simp only [StudentRec.email] at he
  simp only [StudentRec.id] at hi
  simp only [StudentRec.enrollment_date] at hd
  subst hn he hi hd
  constructor
  · rintro (hg | hg) <;> simp only at hg <;> subst hg <;> rfl
  · intro gs ts hg hne hts
    simp only at hg
    subst hg
    cases gs with
    | nil => exact absurd rfl hne
    | cons g gs2 =>
      simp only [renderStudentText, getKey, except_bind_ok, hts, List.isEmpty_cons,
        Bool.false_eq_true, if_false, List.length_cons, Nat.succ_pos, if_true,
        ite_false, ite_true]

/-- A concrete student with one grade, for the C6 witness. -/
def studentEve : StudentRec :=
  { id := some "7", name := some "Eve", email := some "eve@example.com",
    enrollment_date := some "2022-01-10",
    grades := some [{ subject := some "Math", score := some 9, semester := some "S1" }] }

/-- Witness for C6 at `studentEve` (one grade: metrics are appended). -/
theorem student_metrics_iff_grades_witness :
    studentEve.grades = some [⟨some "Math", some 9, some "S1"⟩] ∧
    extractGrades [⟨some "Math", some 9, some "S1"⟩] =
      Except.ok [("Math", (9 : ℚ), "S1")] ∧
    renderStudentText fmtConst fmtConst studentEve =
      Except.ok (studentIdentityText "Eve" "eve@example.com" "7" "2022-01-10" ++ "Grades:\n" ++
        gradeLinesText fmtConst [("Math", (9 : ℚ), "S1")] ++
        studentMetricsText fmtConst fmtConst [("Math", (9 : ℚ), "S1")] ++
        studentExtrasText studentEve) :=
  ⟨rfl, rfl,
    (student_metrics_iff_grades fmtConst fmtConst studentEve "Eve" "eve@example.com" "7"
        "2022-01-10" rfl rfl rfl rfl).2
      [⟨some "Math", some 9, some "S1"⟩] [("Math", (9 : ℚ), "S1")] rfl (by decide) rfl⟩

theorem recordBlocks_mem {α : Type} {f : α → Except String (List Doc)} :
    ∀ {xs : List α} {ys : List (List Doc)},
      recordBlocks f xs = Except.ok ys → ∀ {b : List Doc}, b ∈ ys → ∃ x, f x = Except.ok b := by
  intro xs
  induction xs with
  | nil =>
    intro ys h b hb
    rw [recordBlocks] at h
    cases h
    cases hb
  | cons x xs ih =>
    intro ys h b hb
    rw [recordBlocks] at h
    cases hfx : f x with
    | error e => rw [hfx] at h; cases h
    | ok d =>
      rw [hfx, except_bind_ok] at h
      cases hrec : recordBlocks f xs with
      | error e => rw [hrec] at h; cases h
      | ok ds =>
        rw [hrec, except_bind_ok] at h
        cases h
        rcases List.mem_cons.mp hb with hb | hb
        · exact ⟨x, hb ▸ hfx⟩
        · exact ih hrec hb

theorem enum_chunk_block_inv (chunks : List String) (mk : ℕ × String → Doc)
    (hmk : ∀ p : ℕ × String,
      (mk p).metadata.chunk_number = some p.1 ∧
      (mk p).metadata.total_chunks = some chunks.length) :
    ∀ i (hilt : i < (chunks.enum.map mk).length),
      ((chunks.enum.map mk).get ⟨i, hilt⟩).metadata.chunk_number = some i ∧
      ((chunks.enum.map mk).get ⟨i, hilt⟩).metadata.total_chunks =
        some (chunks.enum.map mk).length := by
  intro i hilt
  have hi2 : i < chunks.length := by
    simpa [List.length_map, List.enum_length] using hilt
  have hget : (chunks.enum.map mk).get ⟨i, hilt⟩ = mk (i, chunks[i]) := by
    rw [List.get_eq_getElem]
    simp [List.getElem_map, List.getElem_enum]
  have hlen : (chunks.enum.map mk).length = chunks.length := by
    simp [List.length_map, List.enum_length]
  rw [hget, hlen]
  exact ⟨(hmk _).1, (hmk _).2⟩

theorem student_block_inv {split : String → List String} {fmtN fmt2 : ℚ → String}
    {item : StudentRec} {b : List Doc}
    (h : student_docs split fmtN fmt2 item = Except.ok b) :
    ∀ i (hilt : i < b.length),
      (b.get ⟨i, hilt⟩).metadata.chunk_number = some i ∧
      (b.get ⟨i, hilt⟩).metadata.total_chunks = some b.length := by
  rw [student_docs] at h
  cases hr : renderStudentText fmtN fmt2 item with
  | error e => rw [hr] at h; cases h
  | ok text =>
    rw [hr, except_bind_ok] at h
    cases hid : item.id with
    | none => rw [hid] at h; cases h
    | some idv =>
      rw [hid] at h
      cases hnm : item.name with
      | none => rw [hnm] at h; cases h
      | some nm =>
        rw [hnm] at h
        simp only [getKey, except_bind_ok] at h
        cases h
        exact enum_chunk_block_inv (split text) _ (fun p => ⟨rfl, rfl⟩)

theorem course_block_inv {split : String → List String} {fmt2 fmt1 : ℚ → String}
    {course : CourseRec} {b : List Doc}
    (h : course_docs split fmt2 fmt1 course = Except.ok b) :
    ∀ i (hilt : i < b.length),
      (b.get ⟨i, hilt⟩).metadata.chunk_number = some i ∧
      (b.get ⟨i, hilt⟩).metadata.total_chunks = some b.length := by
  rw [course_docs] at h
  cases hr : renderCourseText fmt2 fmt1 course with
  | error e => rw [hr] at h; cases h
  | ok text =>
    rw [hr, except_bind_ok] at h
    cases hid : course.id with
    | none => rw [hid] at h; cases h
    | some idv =>
      rw [hid] at h
      cases hnm : course.name with
      | none => rw [hnm] at h; cases h
      | some nm =>
        rw [hnm] at h
        simp only [getKey, except_bind_ok] at h
        cases h
        exact enum_chunk_block_inv (split text) _ (fun p => ⟨rfl, rfl⟩)

/-- C7: the builder output is the concatenation of one block of documents
per record; within a block the `i`-th document carries chunk index `i` and
every document of the block carries the block length as its total chunk
count — hence `0 ≤ chunkIndex < totalChunks` and all chunks of one record
agree on `totalChunks`. -/
theorem chunk_index_invariant (split : String → List String) (fmtN fmt2 fmt1 : ℚ → String)
    (students : List StudentRec) (courses : List CourseRec)
    (sBlocks cBlocks : List (List Doc))
    (hs : recordBlocks (student_docs split fmtN fmt2) students = Except.ok sBlocks)
    (hc : recordBlocks (course_docs split fmt2 fmt1) courses = Except.ok cBlocks) :
    process_data_to_documents split fmtN fmt2 fmt1 students courses =
      Except.ok ((sBlocks ++ cBlocks).flatten) ∧
    ∀ b ∈ sBlocks ++ cBlocks, ∀ i (hilt : i < b.length),
      (b.get ⟨i, hilt⟩).metadata.chunk_number = some i ∧
      (b.get ⟨i, hilt⟩).metadata.total_chunks = some b.length := by
  constructor
  · rw [process_data_to_documents, hs, except_bind_ok, hc, except_bind_ok]
  · intro b hb i hilt
    rcases List.mem_append.mp hb with hbm | hbm
    · obtain ⟨x, hx⟩ := recordBlocks_mem hs hbm
      exact student_block_inv hx i hilt
    · obtain ⟨x, hx⟩ := recordBlocks_mem hc hbm
      exact course_block_inv hx i hilt

/-- A concrete student with no grades, for the C7 witness. -/
def studentBob : StudentRec :=
  { id := some "3", name := some "Bob", email := some "b@e.x",
    enrollment_date := some "2021" }

/-- The single document built from `studentBob` with the one-chunk
splitter. -/
def docBob : Doc :=
  { page_content := "Student: Bob (Email: b@e.x)\nID: 3\nEnrollment Date: 2021\n",
    metadata :=
      { student_id := some "3", type := some "student_record", name := some "Bob",
        chunk_number := some 0, total_chunks := some 1 } }

/-- Witness for C7 at the one-record batch `[studentBob]`. -/
theorem chunk_index_invariant_witness :
    recordBlocks (student_docs splitWhole fmtConst fmtConst) [studentBob] =
      Except.ok [[docBob]] ∧
    recordBlocks (course_docs splitWhole fmtConst fmtConst) [] =
      Except.ok ([] : List (List Doc)) ∧
    process_data_to_documents splitWhole fmtConst fmtConst fmtConst [studentBob] [] =
      Except.ok (([[docBob]] ++ ([] : List (List Doc))).flatten) ∧
    docBob.metadata.chunk_number = some 0 ∧
    docBob.metadata.total_chunks = some 1 :=
  ⟨rfl, rfl,
   (chunk_index_invariant splitWhole fmtConst fmtConst fmtConst [studentBob] []
      [[docBob]] [] rfl rfl).1,
   ((chunk_index_invariant splitWhole fmtConst fmtConst fmtConst [studentBob] []
      [[docBob]] [] rfl rfl).2 [docBob] (by simp) 0 (by decide)).1,
   ((chunk_index_invariant splitWhole fmtConst fmtConst fmtConst [studentBob] []
      [[docBob]] [] rfl rfl).2 [docBob] (by simp) 0 (by decide)).2⟩

/-! ### Response Assembler (step 8 of `AIService.chat`) -/

/-- One entry of the response `sources` list. -/
structure SourceEntry where
  id : String
  type : String
  name : String
  relevance : ℚ
  snippet : String
deriving DecidableEq

/-- `content[:100] + "..." if len(content) > 100 else content`. -/
def snippetOf (content : String) : String :=
  if 100 < content.length then String.mk (content.data.take 100) ++ "..." else content

/-- The source-collection loop of `AIService.chat`: one `SourceEntry` per
chunk whose metadata identifies a student or course record (appended in
order, without deduplication), plus the sets of distinct contributing
student and course ids. -/
def build_sources : List ScoredDoc → List SourceEntry × Finset String × Finset String
  | [] => ([], ∅, ∅)
  | d :: rest =>
    let r := build_sources rest
    let md := d.doc.metadata
    let doc_type := md.type.getD "unknown"
    if doc_type = "student_record" then
      match md.student_id with
      | some sid =>
          (⟨sid, "student", md.name.getD "Unknown Student", d.relevance_score,
              snippetOf d.doc.page_content⟩ :: r.1,
            insert sid r.2.1, r.2.2)
      | none => r
    else if doc_type = "course_record" then
      match md.course_id with
      | some cid =>
          (⟨cid, "course", md.name.getD "Unknown Course", d.relevance_score,
              snippetOf d.doc.page_content⟩ :: r.1,
            r.2.1, insert cid r.2.2)
      | none => r
    else r

/-- The `metadata` mapping of the response envelope. -/
structure ChatMetadata where
  query_type : String
  student_count : ℕ
  course_count : ℕ
  context_length : ℕ
  processing_time : String
  last_db_update : String
deriving DecidableEq

/-- The response envelope returned by `AIService.chat`. -/
structure ChatResponse where
  answer : String
  sources : List SourceEntry
  metadata : ChatMetadata
  confidence : ℚ
deriving DecidableEq

/-- Step 8 of `AIService.chat`: assemble the final response from the
completion text and the optimized documents. -/
def assemble_chat_response (answer query_type context last_db_update : String)
    (optimized_docs : List ScoredDoc) : ChatResponse :=
  let r := build_sources optimized_docs
  { answer := answer,
    sources := r.1,
    metadata :=
      { query_type := query_type, student_count := r.2.1.card, course_count := r.2.2.card,
        context_length := context.length, processing_time := "0.5s",
        last_db_update := last_db_update },
    confidence := 0.85 }

/-- The source entry contributed by one chunk, when its metadata
identifies a student or course record. -/
def source_entry_of (d : ScoredDoc) : Option SourceEntry :=
  let md := d.doc.metadata
  if md.type.getD "unknown" = "student_record" then
    md.student_id.map (fun sid =>
      ⟨sid, "student", md.name.getD "Unknown Student", d.relevance_score,
        snippetOf d.doc.page_content⟩)
  else if md.type.getD "unknown" = "course_record" then
    md.course_id.map (fun cid =>
      ⟨cid, "course", md.name.getD "Unknown Course", d.relevance_score,
        snippetOf d.doc.page_content⟩)
  else none

/-- The student id a chunk contributes to the `student_count` summary. -/
def contributing_student_id (d : ScoredDoc) : Option String :=
  if d.doc.metadata.type.getD "unknown" = "student_record" then d.doc.metadata.student_id
  else none

/-- The course id a chunk contributes to the `course_count` summary. -/
def contributing_course_id (d : ScoredDoc) : Option String :=
  if d.doc.metadata.type.getD "unknown" = "course_record" then d.doc.metadata.course_id
  else none

theorem build_sources_eq (docs : List ScoredDoc) :
    build_sources docs =
      (docs.filterMap source_entry_of,
        (docs.filterMap contributing_student_id).toFinset,
        (docs.filterMap contributing_course_id).toFinset) := by
  induction docs with
  | nil => rfl
  | cons d rest ih =>
    rw [build_sources, ih]
    by_cases hs : d.doc.metadata.type.getD "unknown" = "student_record"
    · cases hsid : d.doc.metadata.student_id with
      | none =>
        simp [source_entry_of, contributing_student_id, contributing_course_id, hs, hsid,
          List.filterMap_cons]
      | some sid =>
        simp [source_entry_of, contributing_student_id, contributing_course_id, hs, hsid,
          List.filterMap_cons, List.toFinset_cons]
    · by_cases hc : d.doc.metadata.type.getD "unknown" = "course_record"
      · cases hcid : d.doc.metadata.course_id with
        | none =>
          simp [source_entry_of, contributing_student_id, contributing_course_id, hs, hc,
            hcid, List.filterMap_cons]
        | some cid =>
          simp [source_entry_of, contributing_student_id, contributing_course_id, hs, hc,
            hcid, List.filterMap_cons, List.toFinset_cons]
      · simp [source_entry_of, contributing_student_id, contributing_course_id, hs, hc,
          List.filterMap_cons]

/-- C8: the assembled response carries one source entry per contributing
chunk, in order and without deduplication; the summary counts are the
numbers of distinct student and course ids among those chunks; each
snippet is the first 100 characters of the chunk content with an ellipsis
exactly when the content is longer; and the confidence is the fixed stub
0.85. -/
theorem response_assembler_spec (answer query_type context last_db_update : String)
    (docs : List ScoredDoc) :
    (assemble_chat_response answer query_type context last_db_update docs).sources =
      docs.filterMap source_entry_of ∧
    (assemble_chat_response answer query_type context last_db_update docs).metadata.student_count =
      (docs.filterMap contributing_student_id).dedup.length ∧
    (assemble_chat_response answer query_type context last_db_update docs).metadata.course_count =
      (docs.filterMap contributing_course_id).dedup.length ∧
    (∀ e ∈ (assemble_chat_response answer query_type context last_db_update docs).sources,
      ∃ d ∈ docs, source_entry_of d = some e ∧
        e.snippet = (if 100 < d.doc.page_content.length
          then String.mk (d.doc.page_content.data.take 100) ++ "..."
          else d.doc.page_content)) ∧
    (assemble_chat_response answer query_type context last_db_update docs).confidence = 0.85 := by
  refine ⟨?_, ?_, ?_, ?_, rfl⟩
  · simp [assemble_chat_response, build_sources_eq]
  · simp [assemble_chat_response, build_sources_eq, List.card_toFinset]
  · simp [assemble_chat_response, build_sources_eq, List.card_toFinset]
  · intro e he
    simp only [assemble_chat_response, build_sources_eq] at he
    obtain ⟨d, hd, hde⟩ := List.mem_filterMap.mp he
    refine ⟨d, hd, hde, ?_⟩
    rw [source_entry_of] at hde
    by_cases hs : d.doc.metadata.type.getD "unknown" = "student_record"
    · cases hsid : d.doc.metadata.student_id with
      | none => simp [hs, hsid] at hde
      | some sid =>
        simp [hs, hsid] at hde
        subst hde
        rfl
    · by_cases hc : d.doc.metadata.type.getD "unknown" = "course_record"
      · cases hcid : d.doc.metadata.course_id with
        | none => simp [hs, hc, hcid] at hde
        | some cid =>
          simp [hs, hc, hcid] at hde
          subst hde
          rfl
      · simp [hs, hc] at hde

/-- A scored student chunk for the C8 witness. -/
def sdAnn : ScoredDoc :=
  ⟨{ page_content := "Student: Ann",
     metadata := { type := some "student_record", student_id := some "7",
                   name := some "Ann" } }, 1⟩

/-- Witness for C8 at the one-chunk list `[sdAnn]`. -/
theorem response_assembler_spec_witness :
    (assemble_chat_response "ok" "general" "ctx" "2024-01-01" [sdAnn]).sources =
      [sdAnn].filterMap source_entry_of ∧
    (assemble_chat_response "ok" "general" "ctx" "2024-01-01" [sdAnn]).metadata.student_count =
      ([sdAnn].filterMap contributing_student_id).dedup.length ∧
    (assemble_chat_response "ok" "general" "ctx" "2024-01-01" [sdAnn]).confidence = 0.85 :=
  ⟨(response_assembler_spec "ok" "general" "ctx" "2024-01-01" [sdAnn]).1,
   (response_assembler_spec "ok" "general" "ctx" "2024-01-01" [sdAnn]).2.1,
   (response_assembler_spec "ok" "general" "ctx" "2024-01-01" [sdAnn]).2.2.2.2⟩

end StudentManager
